import Mathlib

/-!
# Verification of the nasa-forecastr regional prediction engine

Shallow embedding of the Deno edge function that serves regional weather
predictions (the `serve` handler together with its helpers `calculateStdDev`,
`calculateTrend` and `fetchLocationData`).

Modelling conventions, fixed once for the whole development:

* Finite JavaScript doubles are idealized as exact rationals (`ℚ`); the
  rounding error of IEEE binary64 arithmetic is outside the scope of this
  embedding.  `NaN` and the infinities, which the source can actually produce
  (in the confidence-interval arithmetic, where `0 / Math.sqrt(0)` occurs),
  are tracked explicitly by the type `JNum`.  Signed zero is not
  distinguished from zero.
* `Math.sqrt` is an abstract parameter `jsqrt : ℚ → ℚ` of every definition
  that needs it.  In this program it is only applied to nonnegative numbers
  (a population variance and a sample count); theorems assume nothing about
  it beyond facts that are exactly true of the IEEE function at the points
  used (such as `Math.sqrt(0) = 0`).
* The network is modelled as a deterministic environment
  `env : FetchSpec → UpstreamResponse` mapping each grid-point request to the
  upstream answer it receives.  `Promise.all` over the five fetches is
  `promiseAll`, which fails as soon as any listed fetch fails (the source's
  all-or-nothing barrier; which failing fetch provides the message is a
  scheduling artifact, modelled here as the first in grid order).
* The handler's request is the already-parsed JSON body: the four
  destructured fields `lat`, `lon`, `date`, `variables`, each a `JSVal`
  (number, string, or absent/undefined, plus NaN which arises from
  arithmetic on the former).  Failures of `req.json()` itself (a malformed
  body) are below the granularity of this model.
* The runtime is assumed to be in the UTC timezone (as on the deployment
  platform), so `getMonth`/`getDate` agree with the UTC calendar.  Of the
  date formats `new Date` accepts, the date-only ISO form `YYYY-MM-DD` is
  parsed structurally; numeric arguments (epoch milliseconds) are converted
  through the proleptic Gregorian calendar; other exotic string formats are
  not exercised by any theorem below and are treated as `Invalid Date`.
-/

namespace NasaForecastr

/-- A JavaScript number as the confidence-interval arithmetic can produce it:
a finite value (idealized as an exact rational), `NaN`, or a signed
infinity. -/
inductive JNum where
  | num (q : ℚ)
  | nan
  | inf (pos : Bool)
deriving DecidableEq

/-- JS addition on `JNum` (finite values exact, `NaN` absorbing, opposite
infinities give `NaN`). -/
def jadd : JNum → JNum → JNum
  | .nan, _ => .nan
  | _, .nan => .nan
  | .num a, .num b => .num (a + b)
  | .inf p, .inf q => if p = q then .inf p else .nan
  | .inf p, .num _ => .inf p
  | .num _, .inf p => .inf p

/-- JS negation on `JNum`. -/
def jneg : JNum → JNum
  | .num a => .num (-a)
  | .nan => .nan
  | .inf p => .inf (!p)

/-- JS subtraction on `JNum`. -/
def jsub (a b : JNum) : JNum := jadd a (jneg b)

/-- JS multiplication on `JNum`; `0 * ±∞ = NaN`. -/
def jmul : JNum → JNum → JNum
  | .nan, _ => .nan
  | _, .nan => .nan
  | .num a, .num b => .num (a * b)
  | .inf p, .inf q => .inf (p == q)
  | .inf p, .num b => if b = 0 then .nan else .inf (p == decide (0 < b))
  | .num a, .inf p => if a = 0 then .nan else .inf (p == decide (0 < a))

/-- JS division on `JNum`; `0 / 0 = NaN`, `a / 0 = ±∞` for finite `a ≠ 0`
(signed zero ignored), `a / ±∞ = 0`, `±∞ / ±∞ = NaN`. -/
def jdiv : JNum → JNum → JNum
  | .nan, _ => .nan
  | _, .nan => .nan
  | .num a, .num b =>
      if b = 0 then (if a = 0 then .nan else .inf (decide (0 < a)))
      else .num (a / b)
  | .num _, .inf _ => .num 0
  | .inf p, .num b => .inf (p == decide (0 ≤ b))
  | .inf _, .inf _ => .nan

/-- `Math.round` on a finite value: round half toward positive infinity. -/
def jsRound (q : ℚ) : ℤ := ⌊q + 1 / 2⌋

/-- The source's rounding idiom `Math.round(x * k) / k` on finite values
(`k` is 10, 100 or 1000 at the call sites). -/
def roundTo (k : ℚ) (q : ℚ) : ℚ := (jsRound (q * k) : ℚ) / k

/-- `Math.round(x * 10) / 10` on a `JNum`: `Math.round` maps `NaN` to `NaN`
and `±∞` to `±∞`, and the division by 10 preserves both. -/
def jround1 : JNum → JNum
  | .num q => .num (roundTo 10 q)
  | .nan => .nan
  | .inf p => .inf p

/-- The source's summing idiom `values.reduce((a, b) => a + b, 0)`. -/
def listSum (l : List ℚ) : ℚ := l.foldl (fun a b => a + b) 0

/-- Source `calculateStdDev` (regional function, lines 123–128): population
standard deviation with an early `0` for the empty list; `Math.pow(v - mean, 2)`
and `Math.sqrt` on the variance.  `jsqrt` is the abstract `Math.sqrt`. -/
def calculateStdDev (jsqrt : ℚ → ℚ) (values : List ℚ) (mean : ℚ) : ℚ :=
  if values.length = 0 then 0
  else jsqrt (listSum (values.map (fun v => (v - mean) ^ 2)) / (values.length : ℚ))

/-- Mean of the 0-based indices `0, …, n−1`, the source's
`indices.reduce((a, b) => a + b, 0) / n` with `indices = [0, …, n−1]`. -/
def idxMean (n : ℕ) : ℚ := listSum ((List.range n).map (fun (i : ℕ) => (i : ℚ))) / (n : ℚ)

/-- The regression denominator accumulated by the source's loop:
`Σ_{i<n} (indices[i] - meanX)²`.  It depends only on the sample length. -/
def trendDenom (n : ℕ) : ℚ :=
  listSum ((List.range n).map (fun (i : ℕ) => ((i : ℚ) - idxMean n) ^ 2))

/-- The regression numerator accumulated by the source's loop:
`Σ_{i<n} (indices[i] - meanX) * (values[i] - meanY)` with
`meanX = idxMean n` and `meanY = values.reduce((a,b) => a+b, 0) / n`. -/
def trendNumerator (values : List ℚ) : ℚ :=
  listSum ((List.range values.length).map
    (fun (i : ℕ) => ((i : ℚ) - idxMean values.length) *
      (values.getD i 0 - listSum values / (values.length : ℚ))))

/-- Source `calculateTrend` (lines 131–147): least-squares slope of value
against 0-based index, `0` for fewer than two values, and `0` when the
accumulated denominator is zero (`denominator !== 0 ? numerator / denominator : 0`).
The source's locals `meanX`, `numerator` and `denominator` are the top-level
`idxMean`, `trendNumerator` and `trendDenom`. -/
def calculateTrend (values : List ℚ) : ℚ :=
  if values.length < 2 then 0
  else if trendDenom values.length ≠ 0 then
    trendNumerator values / trendDenom values.length
  else 0

/-- The probability idiom of lines 241–259: filter by the threshold
predicate, count, divide by the total count, scale to a rounded percentage,
with `0` for an empty sample
(`values.length > 0 ? Math.round((count / values.length) * 100) : 0`). -/
def exceedProbability (values : List ℚ) (p : ℚ → Bool) : ℤ :=
  if 0 < values.length then
    jsRound (((values.filter p).length : ℚ) / (values.length : ℚ) * 100)
  else 0

/-- A raw NASA POWER per-parameter series: the JSON object mapping date keys
(`YYYYMMDD`) to numeric values, kept in the object's own key order. -/
abbrev RawSeries := List (String × ℚ)

/-- `Object.values` of a possibly absent series; the source's
`nasaData.properties?.parameter?.T2M || {}` makes an absent series the empty
object, whose value list is empty. -/
def seriesValues (m : Option RawSeries) : List ℚ :=
  match m with
  | none => []
  | some l => l.map (fun kv => kv.2)

/-- The sentinel filter of lines 215–217: `.filter((v: any) => v !== -999)`. -/
def sentinelFilter (vs : List ℚ) : List ℚ :=
  vs.filter (fun v => decide (v ≠ -999))

/-- The payload shape consumed from one grid-point fetch: per-parameter
series under `properties.parameter`, each possibly absent. -/
structure NasaData where
  T2M : Option RawSeries
  PRECTOTCORR : Option RawSeries
  WS10M : Option RawSeries
deriving DecidableEq

/-- Pooled temperature sample (lines 206–218): for each grid point's payload
in order, append the sentinel-filtered values of its `T2M` series. -/
def allTempValues (ds : List NasaData) : List ℚ :=
  ds.flatMap (fun d => sentinelFilter (seriesValues d.T2M))

/-- Pooled precipitation sample, as `allTempValues` but for `PRECTOTCORR`. -/
def allPrecipValues (ds : List NasaData) : List ℚ :=
  ds.flatMap (fun d => sentinelFilter (seriesValues d.PRECTOTCORR))

/-- Pooled wind-speed sample, as `allTempValues` but for `WS10M`. -/
def allWindValues (ds : List NasaData) : List ℚ :=
  ds.flatMap (fun d => sentinelFilter (seriesValues d.WS10M))

/-- The `temp_confidence_range` object of the result (lines 264–267). -/
structure ConfidenceRange where
  lower : JNum
  upper : JNum
deriving DecidableEq

/-- The result object assembled at lines 261–279, field for field. -/
structure PredictionResult where
  average_temp : ℚ
  temp_std_dev : ℚ
  temp_confidence_range : ConfidenceRange
  temp_trend : String
  temp_trend_value : ℚ
  average_precip : ℚ
  precip_std_dev : ℚ
  rain_probability : ℤ
  hot_probability : ℤ
  cold_probability : ℤ
  wind_probability : ℤ
  data_years : ℕ
  data_points : ℕ
  regional_coverage : String
deriving DecidableEq

/-- Lines 205–279 of the source: pool the per-grid-point payloads, derive the
statistics and assemble the result.  `gridCount` is `gridPoints.length`,
interpolated into `regional_coverage`.  The only place `NaN` can arise is the
margin of error, whose `temp_std_dev / Math.sqrt(length)` is `0 / 0` for an
empty pooled temperature sample, so exactly the confidence bounds live in
`JNum`. -/
def buildResult (jsqrt : ℚ → ℚ) (gridCount : ℕ) (regionalData : List NasaData) :
    PredictionResult :=
  let allTemp := allTempValues regionalData
  let allPrecip := allPrecipValues regionalData
  let allWind := allWindValues regionalData
  let average_temp : ℚ :=
    if 0 < allTemp.length then listSum allTemp / (allTemp.length : ℚ) else 20
  let temp_std_dev := calculateStdDev jsqrt allTemp average_temp
  let temp_trend := calculateTrend allTemp
  let z_score : ℚ := 196 / 100
  let margin_of_error : JNum :=
    jmul (.num z_score) (jdiv (.num temp_std_dev) (.num (jsqrt (allTemp.length : ℚ))))
  let temp_confidence_lower := jsub (.num average_temp) margin_of_error
  let temp_confidence_upper := jadd (.num average_temp) margin_of_error
  let average_precip : ℚ :=
    if 0 < allPrecip.length then listSum allPrecip / (allPrecip.length : ℚ) else 0
  let precip_std_dev := calculateStdDev jsqrt allPrecip average_precip
  { average_temp := roundTo 10 average_temp
    temp_std_dev := roundTo 10 temp_std_dev
    temp_confidence_range :=
      { lower := jround1 temp_confidence_lower
        upper := jround1 temp_confidence_upper }
    temp_trend :=
      if 1 / 100 < temp_trend then "warming"
      else if temp_trend < -(1 / 100) then "cooling" else "stable"
    temp_trend_value := roundTo 1000 temp_trend
    average_precip := roundTo 100 average_precip
    precip_std_dev := roundTo 100 precip_std_dev
    rain_probability := exceedProbability allPrecip (fun p => decide (1 < p))
    hot_probability := exceedProbability allTemp (fun t => decide (35 < t))
    cold_probability := exceedProbability allTemp (fun t => decide (t < 10))
    wind_probability := exceedProbability allWind (fun w => decide (10 < w))
    data_years := 15
    data_points := allTemp.length
    regional_coverage := "~50km radius (" ++ toString gridCount ++ " grid points)" }

/-- A value a destructured request field can hold: a JSON number, a JSON
string, or absent (`undefined`), plus `NaN`, which arithmetic on the former
can produce.  (JSON `null`, booleans and nested objects are not exercised by
any theorem below.) -/
inductive JSVal where
  | num (q : ℚ)
  | str (s : String)
  | undef
  | nan
deriving DecidableEq

/-- JS `ToNumber` on a string, for the decimal numerals exercised here:
optional sign, digits, optional fractional part; the empty string converts
to `0`, anything else to `NaN` (`none`).  Whitespace trimming, exponents and
hex literals are outside the strings this development evaluates. -/
def strToNumber (s : String) : Option ℚ :=
  if s = "" then some 0
  else
    let signBody : ℚ × List Char :=
      match s.data with
      | '-' :: cs => (-1, cs)
      | '+' :: cs => (1, cs)
      | cs => (1, cs)
    let sign := signBody.1
    let body := signBody.2
    let intPart := body.takeWhile Char.isDigit
    let rest := body.drop intPart.length
    let fracPart : Option (List Char) :=
      match rest with
      | [] => some []
      | '.' :: fs => if fs.all Char.isDigit then some fs else none
      | _ => none
    match fracPart with
    | none => none
    | some fs =>
        if intPart.isEmpty && fs.isEmpty then none
        else
          let iv : ℕ := intPart.foldl (fun n c => n * 10 + (c.toNat - 48)) 0
          let fv : ℕ := fs.foldl (fun n c => n * 10 + (c.toNat - 48)) 0
          some (sign * ((iv : ℚ) + (fv : ℚ) / (10 : ℚ) ^ fs.length))

/-- JS `x + 0.5` as the grid construction applies it to a request field:
numbers add; a string concatenates with `"0.5"`; `undefined` and `NaN` give
`NaN`. -/
def jsAddHalf : JSVal → JSVal
  | .num a => .num (a + 1 / 2)
  | .str s => .str (s ++ "0.5")
  | .undef => .nan
  | .nan => .nan

/-- JS `x - 0.5`: subtraction coerces its operands with `ToNumber`, so a
numeric string becomes its value and any other string becomes `NaN`. -/
def jsSubHalf : JSVal → JSVal
  | .num a => .num (a - 1 / 2)
  | .str s =>
      match strToNumber s with
      | some q => .num (q - 1 / 2)
      | none => .nan
  | .undef => .nan
  | .nan => .nan

/-- One of the five regional grid points (lines 188–194). -/
structure GridPoint where
  lat : JSVal
  lon : JSVal
deriving DecidableEq

/-- The fixed grid of lines 188–194: center, north, south, east, west. -/
def gridPoints (lat lon : JSVal) : List GridPoint :=
  [ { lat := lat, lon := lon },
    { lat := jsAddHalf lat, lon := lon },
    { lat := jsSubHalf lat, lon := lon },
    { lat := lat, lon := jsAddHalf lon },
    { lat := lat, lon := jsSubHalf lon } ]

/-- Gregorian leap-year test. -/
def isLeapYear (y : ℤ) : Bool :=
  (y % 4 == 0 && y % 100 != 0) || (y % 400 == 0)

/-- Days in a month of the Gregorian calendar. -/
def daysInMonth (y : ℤ) (m : ℕ) : ℕ :=
  if m = 2 then (if isLeapYear y then 29 else 28)
  else if m = 4 ∨ m = 6 ∨ m = 9 ∨ m = 11 then 30
  else 31

/-- Parse a date-only ISO string `YYYY-MM-DD`, which `new Date` accepts as a
valid UTC date exactly when the fields are in calendar range. -/
def parseISODate (s : String) : Option (ℤ × ℕ × ℕ) :=
  match s.data with
  | [y1, y2, y3, y4, '-', m1, m2, '-', d1, d2] =>
      if [y1, y2, y3, y4, m1, m2, d1, d2].all Char.isDigit then
        let nat := fun (cs : List Char) => cs.foldl (fun n c => n * 10 + (c.toNat - 48)) 0
        let y : ℕ := nat [y1, y2, y3, y4]
        let m : ℕ := nat [m1, m2]
        let d : ℕ := nat [d1, d2]
        if 1 ≤ m ∧ m ≤ 12 ∧ 1 ≤ d ∧ d ≤ daysInMonth (y : ℤ) m then
          some ((y : ℤ), m, d)
        else none
      else none
  | _ => none

/-- Truncation toward zero, JS `ToInteger` on a finite number. -/
def truncToInt (q : ℚ) : ℤ := if 0 ≤ q then ⌊q⌋ else -⌊-q⌋

/-- Civil date (year, month, day) from a count of days since 1970-01-01 in
the proleptic Gregorian calendar (the classic era-based conversion; all
intermediate divisions act on nonnegative operands). -/
def civilFromDays (z0 : ℤ) : ℤ × ℕ × ℕ :=
  let z := z0 + 719468
  let era : ℤ := (if 0 ≤ z then z else z - 146096).tdiv 146097
  let doe : ℤ := z - era * 146097
  let yoe : ℤ := (doe - doe.tdiv 1460 + doe.tdiv 36524 - doe.tdiv 146096).tdiv 365
  let y : ℤ := yoe + era * 400
  let doy : ℤ := doe - (365 * yoe + yoe.tdiv 4 - yoe.tdiv 100)
  let mp : ℤ := (5 * doy + 2).tdiv 153
  let d : ℤ := doy - (153 * mp + 2).tdiv 5 + 1
  let m : ℤ := if mp < 10 then mp + 3 else mp - 9
  ((if m ≤ 2 then y + 1 else y), m.toNat, d.toNat)

/-- Lines 171–173: `new Date(date)` followed by `getMonth() + 1` and
`getDate()`, in a UTC runtime.  `none` is an `Invalid Date`, whose month and
day are `NaN`. -/
def getMonthDay : JSVal → Option (ℕ × ℕ)
  | .str s => (parseISODate s).map (fun t => (t.2.1, t.2.2))
  | .num q =>
      let c := civilFromDays ((truncToInt q).fdiv 86400000)
      some (c.2.1, c.2.2)
  | .undef => none
  | .nan => none

/-- `padStart(2, '0')` on an already-rendered number. -/
def pad2 (s : String) : String := if s.length < 2 then "0" ++ s else s

/-- Render a month or day number the way the source's template literal does:
a number prints as its decimal numeral, `NaN` prints as `"NaN"`. -/
def jsNumToString : Option ℕ → String
  | some n => toString n
  | none => "NaN"

/-- Line 181: `` `${startYear}${month…padStart(2,'0')}${day…padStart(2,'0')}` ``
with `startYear = currentYear - 15`. -/
def startDateStr (currentYear : ℕ) (md : Option (ℕ × ℕ)) : String :=
  toString (currentYear - 15) ++ pad2 (jsNumToString (md.map (fun p => p.1)))
    ++ pad2 (jsNumToString (md.map (fun p => p.2)))

/-- Line 182: the same with `endYear = currentYear - 1`. -/
def endDateStr (currentYear : ℕ) (md : Option (ℕ × ℕ)) : String :=
  toString (currentYear - 1) ++ pad2 (jsNumToString (md.map (fun p => p.1)))
    ++ pad2 (jsNumToString (md.map (fun p => p.2)))

/-- The parsed request body destructured at line 167. -/
structure Request where
  lat : JSVal
  lon : JSVal
  date : JSVal
  «variables» : JSVal
deriving DecidableEq

/-- The query components `fetchLocationData` interpolates into one NASA
POWER URL (line 151): parameter codes, the grid point's coordinates, and the
`start`/`end` of the requested inclusive daily range. -/
structure FetchSpec where
  parameters : String
  latitude : JSVal
  longitude : JSVal
  startDate : String
  endDate : String
deriving DecidableEq

/-- Everything the handler computes before the fan-out (lines 167–200): the
month/day of the target date, the `YYYYMMDD` range endpoints, the constant
parameter list `'T2M,PRECTOTCORR,WS10M'` (line 185), and one fetch per grid
point.  There is no validation of `lat`, `lon` or `date` anywhere on this
path, and `variables` is never read. -/
def fetchSpecs (currentYear : ℕ) (req : Request) : List FetchSpec :=
  let md := getMonthDay req.date
  let s := startDateStr currentYear md
  let e := endDateStr currentYear md
  (gridPoints req.lat req.lon).map (fun p =>
    { parameters := "T2M,PRECTOTCORR,WS10M"
      latitude := p.lat
      longitude := p.lon
      startDate := s
      endDate := e })

/-- What the upstream returns for one fetch: the HTTP success flag and
status consulted by `response.ok`, and the decoded JSON payload. -/
structure UpstreamResponse where
  ok : Bool
  status : ℕ
  payload : NasaData
deriving DecidableEq

/-- Source `fetchLocationData` (lines 150–159): throw
`` `NASA API error: ${response.status}` `` on a non-success status, else
return the payload. -/
def fetchLocationData (resp : UpstreamResponse) : Except String NasaData :=
  if resp.ok then .ok resp.payload
  else .error ("NASA API error: " ++ toString resp.status)

/-- `Promise.all` over the listed fetch outcomes: all-or-nothing, failing
with a failing fetch's error if there is one (taken in list order; see the
module docstring) and with the payload list otherwise. -/
def promiseAll {α : Type} : List (Except String α) → Except String (List α)
  | [] => .ok []
  | .error e :: _ => .error e
  | .ok d :: rest => (promiseAll rest).map (fun ds => d :: ds)

/-- The handler's observable outcome: the JSON-serialized success result, or
the catch branch's `{ error: msg }` with its HTTP status (lines 286–296 set
the status to 500 for every caught error). -/
inductive HandlerResult where
  | success (r : PredictionResult)
  | failure (status : ℕ) (error : String)
deriving DecidableEq

/-- The HTTP status of the outcome, `none` for a success response. -/
def HandlerResult.statusOf : HandlerResult → Option ℕ
  | .success _ => none
  | .failure s _ => some s

/-- Whether the outcome is the catch branch's 500 error response. -/
def HandlerResult.isServerError : HandlerResult → Bool
  | .failure 500 _ => true
  | _ => false

/-- The regional `serve` handler (lines 161–297) on an already-parsed
request, relative to the deterministic fetch environment `env`: build the
window and the five fetch specs, run the `Promise.all` barrier over the
grid-point fetches, and either assemble the result from the pooled payloads
or answer with the catch branch's single 500 `{ error }` response. -/
def handler (currentYear : ℕ) (jsqrt : ℚ → ℚ) (req : Request)
    (env : FetchSpec → UpstreamResponse) : HandlerResult :=
  match promiseAll ((fetchSpecs currentYear req).map (fun s => fetchLocationData (env s))) with
  | .error msg => .failure 500 msg
  | .ok regionalData =>
      .success (buildResult jsqrt (gridPoints req.lat req.lon).length regionalData)

/-- A perfectly linear sample `[a, a + d, a + 2d, …]` of length `n`. -/
def linSeq (a d : ℚ) (n : ℕ) : List ℚ := (List.range n).map (fun (i : ℕ) => a + d * (i : ℚ))

/-- A concrete stand-in for `Math.sqrt` used by closed instantiations; it
agrees with the IEEE function at `0`, the only point those instantiations
evaluate it at. -/
def sqrtZero : ℚ → ℚ := fun _ => 0

/-- A payload with all three series absent. -/
def emptyData : NasaData := { T2M := none, PRECTOTCORR := none, WS10M := none }

/-- An environment whose every fetch succeeds with an empty payload. -/
def okEnv : FetchSpec → UpstreamResponse :=
  fun _ => { ok := true, status := 200, payload := emptyData }

/-- An environment whose every fetch fails with HTTP 503. -/
def envFail : FetchSpec → UpstreamResponse :=
  fun _ => { ok := false, status := 503, payload := emptyData }

/-- An environment in which exactly the fetch for the center grid point of
`req0` (latitude 28, longitude 77) fails with HTTP 503 and every other fetch
succeeds. -/
def envFail1 : FetchSpec → UpstreamResponse :=
  fun s =>
    if s.latitude == JSVal.num 28 && s.longitude == JSVal.num 77 then
      { ok := false, status := 503, payload := emptyData }
    else { ok := true, status := 200, payload := emptyData }

/-- Numeric value of a `YYYYMMDD` numeral; on such digit strings the daily
archive's chronological order of dates coincides with the numerical order of
these values. -/
def dateVal (s : String) : ℕ := s.data.foldl (fun n c => n * 10 + (c.toNat - 48)) 0

/-- A well-formed concrete request. -/
def req0 : Request :=
  { lat := .num 28, lon := .num 77, date := .str "2024-06-15", «variables» := .undef }

/-- A malformed concrete request: `lat` and `date` are absent. -/
def malformedReq : Request :=
  { lat := .undef, lon := .num 77, date := .undef, «variables» := .undef }

theorem foldl_add_eq (l : List ℚ) : ∀ q : ℚ, l.foldl (fun a b => a + b) q = q + l.sum := by
  induction l with
  | nil => intro q; simp
  | cons a t ih => intro q; simp only [List.foldl_cons, ih, List.sum_cons]; ring

theorem listSum_eq_sum (l : List ℚ) : listSum l = l.sum := by
  simp [listSum, foldl_add_eq]

theorem listSum_map_range (f : ℕ → ℚ) (n : ℕ) :
    listSum ((List.range n).map f) = ∑ i in Finset.range n, f i := by
  rw [listSum_eq_sum]
  induction n with
  | zero => simp
  | succ k ih =>
      rw [List.range_succ, List.map_append, List.sum_append, Finset.sum_range_succ, ih]
      simp

/-- C5: for every raw date→value mapping, the sentinel filter yields the
ordered sequence of values with every occurrence of `-999` removed (no
sentinel survives, the result is a subsequence of the value sequence, and a
value belongs to it exactly when it is a non-sentinel value of the mapping,
with multiplicities preserved), it is the identity on value sequences
containing no `-999`, and an absent or empty mapping yields the empty
sequence. -/
theorem sentinel_filter_spec (m : Option RawSeries) :
    ((-999 : ℚ) ∉ sentinelFilter (seriesValues m)) ∧
    (sentinelFilter (seriesValues m)).Sublist (seriesValues m) ∧
    (∀ x : ℚ, x ∈ sentinelFilter (seriesValues m) ↔ x ∈ seriesValues m ∧ x ≠ -999) ∧
    (∀ x : ℚ, x ≠ -999 →
      (sentinelFilter (seriesValues m)).count x = (seriesValues m).count x) ∧
    ((-999 : ℚ) ∉ seriesValues m → sentinelFilter (seriesValues m) = seriesValues m) ∧
    seriesValues (none : Option RawSeries) = [] ∧
    seriesValues (some ([] : RawSeries)) = [] ∧
    sentinelFilter [] = [] := by
  refine ⟨?_, List.filter_sublist _, ?_, ?_, ?_, rfl, rfl, rfl⟩
  · intro h
    rw [sentinelFilter, List.mem_filter] at h
    simp at h
  · intro x
    rw [sentinelFilter, List.mem_filter]
    simp
  · intro x hx
    rw [sentinelFilter, List.count_filter (by simpa using hx)]
  · intro h
    rw [sentinelFilter, List.filter_eq_self]
    intro a ha
    simp only [decide_eq_true_eq]
    intro he
    exact h (he ▸ ha)

theorem sentinel_filter_spec_witness :
    ((sentinelFilter (seriesValues (some [("20100615", 5), ("20100616", -999)]))).count 5 =
      (seriesValues (some [("20100615", 5), ("20100616", -999)])).count 5) ∧
    sentinelFilter (seriesValues (some [("20100615", (3 : ℚ))])) =
      seriesValues (some [("20100615", (3 : ℚ))]) :=
  ⟨(sentinel_filter_spec (some [("20100615", 5), ("20100616", -999)])).2.2.2.1 5 (by decide),
   (sentinel_filter_spec (some [("20100615", (3 : ℚ))])).2.2.2.2.1 (by decide)⟩

theorem exceedProbability_bounds (values : List ℚ) (p : ℚ → Bool) :
    0 ≤ exceedProbability values p ∧ exceedProbability values p ≤ 100 := by
  unfold exceedProbability jsRound
  by_cases h : 0 < values.length
  · rw [if_pos h]
    have hlen : (0 : ℚ) < (values.length : ℚ) := by exact_mod_cast h
    have hcount : ((values.filter p).length : ℚ) ≤ (values.length : ℚ) := by
      exact_mod_cast List.length_filter_le p values
    have hx0 : (0 : ℚ) ≤ ((values.filter p).length : ℚ) / (values.length : ℚ) * 100 := by
      positivity
    have hx1 : ((values.filter p).length : ℚ) / (values.length : ℚ) * 100 ≤ 100 := by
      have hone : ((values.filter p).length : ℚ) / (values.length : ℚ) ≤ 1 :=
        (div_le_one hlen).mpr hcount
      nlinarith
    constructor
    · exact Int.le_floor.mpr (by push_cast; linarith)
    · have hlt : (⌊((values.filter p).length : ℚ) / (values.length : ℚ) * 100 + 1 / 2⌋ : ℤ)
          < 101 := Int.floor_lt.mpr (by push_cast; linarith)
      omega
  · rw [if_neg h]
    omega

/-- C6: each of the four probability fields of the assembled result is the
threshold-classifier value of the corresponding pooled sample with the
source's fixed predicate (rain `> 1.0`, hot `> 35`, cold `< 10`,
wind `> 10`), the classifier yields `0` on an empty sample, and every
probability field is an integer in `[0, 100]`. -/
theorem probability_fields_spec (jsqrt : ℚ → ℚ) (g : ℕ) (ds : List NasaData) :
    ((buildResult jsqrt g ds).rain_probability =
      exceedProbability (allPrecipValues ds) (fun p => decide (1 < p))) ∧
    ((buildResult jsqrt g ds).hot_probability =
      exceedProbability (allTempValues ds) (fun t => decide (35 < t))) ∧
    ((buildResult jsqrt g ds).cold_probability =
      exceedProbability (allTempValues ds) (fun t => decide (t < 10))) ∧
    ((buildResult jsqrt g ds).wind_probability =
      exceedProbability (allWindValues ds) (fun w => decide (10 < w))) ∧
    (∀ p : ℚ → Bool, exceedProbability [] p = 0) ∧
    (0 ≤ (buildResult jsqrt g ds).rain_probability ∧
      (buildResult jsqrt g ds).rain_probability ≤ 100) ∧
    (0 ≤ (buildResult jsqrt g ds).hot_probability ∧
      (buildResult jsqrt g ds).hot_probability ≤ 100) ∧
    (0 ≤ (buildResult jsqrt g ds).cold_probability ∧
      (buildResult jsqrt g ds).cold_probability ≤ 100) ∧
    (0 ≤ (buildResult jsqrt g ds).wind_probability ∧
      (buildResult jsqrt g ds).wind_probability ≤ 100) :=
  ⟨rfl, rfl, rfl, rfl, fun _ => rfl,
   exceedProbability_bounds _ _, exceedProbability_bounds _ _,
   exceedProbability_bounds _ _, exceedProbability_bounds _ _⟩

/-- C9: two requests that differ only in the `variables` field produce the
same five fetch specifications (every one of which requests the constant
parameter list `T2M,PRECTOTCORR,WS10M`), and, against the same upstream
environment, the same handler outcome: the output never depends on the
requested variables. -/
theorem variables_field_ignored (currentYear : ℕ) (jsqrt : ℚ → ℚ)
    (la lo da v1 v2 : JSVal) (env : FetchSpec → UpstreamResponse) :
    fetchSpecs currentYear { lat := la, lon := lo, date := da, «variables» := v1 } =
      fetchSpecs currentYear { lat := la, lon := lo, date := da, «variables» := v2 } ∧
    ((fetchSpecs currentYear { lat := la, lon := lo, date := da, «variables» := v1 }).all
      (fun s => s.parameters == "T2M,PRECTOTCORR,WS10M")) = true ∧
    handler currentYear jsqrt { lat := la, lon := lo, date := da, «variables» := v1 } env =
      handler currentYear jsqrt { lat := la, lon := lo, date := da, «variables» := v2 } env :=
  ⟨rfl, rfl, rfl⟩

/-- C10: every successful handler outcome carries `data_years = 15` and
`regional_coverage = "~50km radius (5 grid points)"`, both constants of the
result assembly, whatever the upstream supplied. -/
theorem metadata_constants (currentYear : ℕ) (jsqrt : ℚ → ℚ) (req : Request)
    (env : FetchSpec → UpstreamResponse) (r : PredictionResult)
    (h : handler currentYear jsqrt req env = .success r) :
    r.data_years = 15 ∧ r.regional_coverage = "~50km radius (5 grid points)" := by
  unfold handler at h
  split at h
  · exact absurd h (by simp)
  · cases h
    refine ⟨rfl, ?_⟩
    show "~50km radius (" ++ toString (gridPoints req.lat req.lon).length ++ " grid points)" = _
    rw [show (gridPoints req.lat req.lon).length = 5 from rfl]
    decide

theorem metadata_constants_witness :
    (buildResult sqrtZero 5 [emptyData, emptyData, emptyData, emptyData, emptyData]).data_years
      = 15 ∧
    (buildResult sqrtZero 5
      [emptyData, emptyData, emptyData, emptyData, emptyData]).regional_coverage =
      "~50km radius (5 grid points)" :=
  metadata_constants 2025 sqrtZero req0 okEnv
    (buildResult sqrtZero 5 [emptyData, emptyData, emptyData, emptyData, emptyData]) rfl

theorem promiseAll_error_of_mem {α : Type} (l : List (Except String α)) (msg : String)
    (h : Except.error msg ∈ l) : ∃ m, promiseAll l = .error m := by
  induction l with
  | nil => cases h
  | cons a t ih =>
      cases a with
      | error e => exact ⟨e, rfl⟩
      | ok d =>
          rcases List.mem_cons.mp h with heq | hmem
          · cases heq
          · obtain ⟨m, hm⟩ := ih hmem
            exact ⟨m, by simp [promiseAll, hm, Except.map]⟩

theorem promiseAll_map_ok {α β : Type} (l : List α) (f : α → Except String β) (g : α → β)
    (h : ∀ x ∈ l, f x = .ok (g x)) : promiseAll (l.map f) = .ok (l.map g) := by
  induction l with
  | nil => rfl
  | cons a t ih =>
      rw [List.map_cons, h a (List.mem_cons_self a t), List.map_cons]
      rw [promiseAll, ih (fun x hx => h x (List.mem_cons_of_mem a hx))]
      rfl

/-- C4: if any one of the five grid-point fetches answers with a non-success
status, the whole handler call takes the catch branch: it answers with the
single 500 `{ error: string }` response and produces no `PredictionResult`
(the `Promise.all` fan-in is all-or-nothing, with no per-grid-point
recovery). -/
theorem single_fetch_failure_aborts (currentYear : ℕ) (jsqrt : ℚ → ℚ) (req : Request)
    (env : FetchSpec → UpstreamResponse)
    (h : ∃ s ∈ fetchSpecs currentYear req, (env s).ok = false) :
    (handler currentYear jsqrt req env).isServerError = true := by
  obtain ⟨s, hs, hok⟩ := h
  have herr : fetchLocationData (env s) =
      .error ("NASA API error: " ++ toString (env s).status) := by
    simp [fetchLocationData, hok]
  have hmem : Except.error ("NASA API error: " ++ toString (env s).status) ∈
      (fetchSpecs currentYear req).map (fun s => fetchLocationData (env s)) := by
    rw [← herr]
    exact List.mem_map_of_mem _ hs
  obtain ⟨m, hm⟩ := promiseAll_error_of_mem _ _ hmem
  unfold handler
  rw [hm]
  rfl

theorem single_fetch_failure_aborts_witness :
    (handler 2025 sqrtZero req0 envFail1).isServerError = true :=
  single_fetch_failure_aborts 2025 sqrtZero req0 envFail1 (by decide)

/-- C2 counterexample: a request whose `lat` and `date` are absent is not
rejected before the fan-out — the handler still issues all five grid-point
fetches (with `"2010NaNNaN"`/`"2024NaNNaN"` as the range endpoints and the
malformed coordinates propagated), and with an upstream that answers every
fetch it even completes successfully, so no client-input rejection exists. -/
theorem malformed_request_not_rejected :
    (fetchSpecs 2025 malformedReq).length = 5 ∧
    ((fetchSpecs 2025 malformedReq).all
      (fun s => s.startDate == "2010NaNNaN" && s.endDate == "2024NaNNaN")) = true ∧
    handler 2025 sqrtZero malformedReq okEnv =
      .success (buildResult sqrtZero 5
        [emptyData, emptyData, emptyData, emptyData, emptyData]) :=
  ⟨rfl, by decide, rfl⟩

/-- C2 amended: the handler performs no input validation at all — every
request, malformed or not, reaches the fan-out of exactly five grid-point
fetches — and its only outcomes are a success response or the catch-all
HTTP 500 `{ error: string }` response, the same shape an upstream fetch
failure produces, so client-input failures are never distinguished. -/
theorem no_validation_uniform_errors (currentYear : ℕ) (jsqrt : ℚ → ℚ) (req : Request)
    (env : FetchSpec → UpstreamResponse) :
    (fetchSpecs currentYear req).length = 5 ∧
    ((handler currentYear jsqrt req env).statusOf = none ∨
      (handler currentYear jsqrt req env).statusOf = some 500) := by
  constructor
  · rfl
  · unfold handler
    cases hp : promiseAll ((fetchSpecs currentYear req).map (fun s => fetchLocationData (env s))) with
    | error e => right; rfl
    | ok ds => left; rfl

/-- C1: the handler does not restrict its window to the target's calendar
day in each year.  For a target of June 15 queried in 2025 it issues, per
grid point, a single fetch whose range endpoints are `20100615` and
`20240615` — the NASA POWER daily API's inclusive `start`/`end` of a
continuous multi-year range — and the pooling loop keeps every non-sentinel
value of the response regardless of its date key: a value recorded under
`20150616` (June 16, 2015 — a different calendar day lying strictly inside
the requested range) enters the pooled sample. -/
theorem fetch_window_spans_all_days :
    startDateStr 2025 (getMonthDay (.str "2024-06-15")) = "20100615" ∧
    endDateStr 2025 (getMonthDay (.str "2024-06-15")) = "20240615" ∧
    (fetchSpecs 2025 req0).length = 5 ∧
    ((fetchSpecs 2025 req0).all
      (fun s => s.startDate == "20100615" && s.endDate == "20240615")) = true ∧
    (dateVal "20100615" < dateVal "20150616" ∧ dateVal "20150616" < dateVal "20240615") ∧
    allTempValues [{ T2M := some [("20150616", 7)], PRECTOTCORR := none, WS10M := none }]
      = [7] :=
  ⟨rfl, rfl, rfl, by decide, ⟨by decide, by decide⟩, rfl⟩

/-- C3: the margin-of-error computation is not guarded against an empty
pooled temperature sample: with `n = 0` the source computes
`1.96 * (0 / Math.sqrt(0)) = 1.96 * NaN = NaN` and the assembled
`temp_confidence_range` has `NaN` as both bounds — neither a zero-width
interval at the mean nor an explicit no-data marker.  The only fact assumed
of `Math.sqrt` is the exact IEEE identity `Math.sqrt(0) = 0`. -/
theorem empty_sample_confidence_nan (jsqrt : ℚ → ℚ) (g : ℕ) (ds : List NasaData)
    (hs : jsqrt 0 = 0) (hT : allTempValues ds = []) :
    (buildResult jsqrt g ds).temp_confidence_range =
      { lower := JNum.nan, upper := JNum.nan } := by
  simp only [buildResult, hT]
  norm_num [calculateStdDev, hs, jdiv, jmul, jadd, jsub, jneg, jround1]

theorem empty_sample_confidence_nan_witness :
    (buildResult sqrtZero 5 [emptyData]).temp_confidence_range =
      { lower := JNum.nan, upper := JNum.nan } :=
  empty_sample_confidence_nan sqrtZero 5 [emptyData] rfl rfl

theorem buildResult_empty_fields (jsqrt : ℚ → ℚ) (g : ℕ) (ds : List NasaData)
    (hT : allTempValues ds = []) (hP : allPrecipValues ds = [])
    (hW : allWindValues ds = []) :
    (buildResult jsqrt g ds).average_temp = 20 ∧
    (buildResult jsqrt g ds).average_precip = 0 ∧
    (buildResult jsqrt g ds).temp_std_dev = 0 ∧
    (buildResult jsqrt g ds).precip_std_dev = 0 ∧
    (buildResult jsqrt g ds).rain_probability = 0 ∧
    (buildResult jsqrt g ds).hot_probability = 0 ∧
    (buildResult jsqrt g ds).cold_probability = 0 ∧
    (buildResult jsqrt g ds).wind_probability = 0 ∧
    (buildResult jsqrt g ds).data_points = 0 := by
  simp only [buildResult, hT, hP, hW]
  norm_num [calculateStdDev, exceedProbability, roundTo, jsRound, listSum]

/-- C8: when every fetch succeeds but every pooled sample is empty, the
handler does not fail: it answers with a successful result whose fields fall
back to the documented defaults — `average_temp = 20.0`,
`average_precip = 0`, both standard deviations `0`, all four probabilities
`0`, and `data_points = 0`. -/
theorem empty_samples_success_defaults (currentYear : ℕ) (jsqrt : ℚ → ℚ) (req : Request)
    (env : FetchSpec → UpstreamResponse)
    (hok : ∀ s ∈ fetchSpecs currentYear req, (env s).ok = true)
    (hT : allTempValues ((fetchSpecs currentYear req).map (fun s => (env s).payload)) = [])
    (hP : allPrecipValues ((fetchSpecs currentYear req).map (fun s => (env s).payload)) = [])
    (hW : allWindValues ((fetchSpecs currentYear req).map (fun s => (env s).payload)) = []) :
    handler currentYear jsqrt req env =
      .success (buildResult jsqrt (gridPoints req.lat req.lon).length
        ((fetchSpecs currentYear req).map (fun s => (env s).payload))) ∧
    (buildResult jsqrt (gridPoints req.lat req.lon).length
      ((fetchSpecs currentYear req).map (fun s => (env s).payload))).average_temp = 20 ∧
    (buildResult jsqrt (gridPoints req.lat req.lon).length
      ((fetchSpecs currentYear req).map (fun s => (env s).payload))).average_precip = 0 ∧
    (buildResult jsqrt (gridPoints req.lat req.lon).length
      ((fetchSpecs currentYear req).map (fun s => (env s).payload))).temp_std_dev = 0 ∧
    (buildResult jsqrt (gridPoints req.lat req.lon).length
      ((fetchSpecs currentYear req).map (fun s => (env s).payload))).precip_std_dev = 0 ∧
    (buildResult jsqrt (gridPoints req.lat req.lon).length
      ((fetchSpecs currentYear req).map (fun s => (env s).payload))).rain_probability = 0 ∧
    (buildResult jsqrt (gridPoints req.lat req.lon).length
      ((fetchSpecs currentYear req).map (fun s => (env s).payload))).hot_probability = 0 ∧
    (buildResult jsqrt (gridPoints req.lat req.lon).length
      ((fetchSpecs currentYear req).map (fun s => (env s).payload))).cold_probability = 0 ∧
    (buildResult jsqrt (gridPoints req.lat req.lon).length
      ((fetchSpecs currentYear req).map (fun s => (env s).payload))).wind_probability = 0 ∧
    (buildResult jsqrt (gridPoints req.lat req.lon).length
      ((fetchSpecs currentYear req).map (fun s => (env s).payload))).data_points = 0 := by
  have hsucc : handler currentYear jsqrt req env =
      .success (buildResult jsqrt (gridPoints req.lat req.lon).length
        ((fetchSpecs currentYear req).map (fun s => (env s).payload))) := by
    unfold handler
    rw [promiseAll_map_ok (fetchSpecs currentYear req) _ (fun s => (env s).payload)
      (fun s hs => by simp [fetchLocationData, hok s hs])]
  obtain ⟨h1, h2, h3, h4, h5, h6, h7, h8, h9⟩ :=
    buildResult_empty_fields jsqrt (gridPoints req.lat req.lon).length _ hT hP hW
  exact ⟨hsucc, h1, h2, h3, h4, h5, h6, h7, h8, h9⟩

theorem empty_samples_success_defaults_witness :
    handler 2025 sqrtZero req0 okEnv =
      .success (buildResult sqrtZero (gridPoints req0.lat req0.lon).length
        ((fetchSpecs 2025 req0).map (fun s => (okEnv s).payload))) ∧
    (buildResult sqrtZero (gridPoints req0.lat req0.lon).length
      ((fetchSpecs 2025 req0).map (fun s => (okEnv s).payload))).average_temp = 20 ∧
    (buildResult sqrtZero (gridPoints req0.lat req0.lon).length
      ((fetchSpecs 2025 req0).map (fun s => (okEnv s).payload))).average_precip = 0 ∧
    (buildResult sqrtZero (gridPoints req0.lat req0.lon).length
      ((fetchSpecs 2025 req0).map (fun s => (okEnv s).payload))).temp_std_dev = 0 ∧
    (buildResult sqrtZero (gridPoints req0.lat req0.lon).length
      ((fetchSpecs 2025 req0).map (fun s => (okEnv s).payload))).precip_std_dev = 0 ∧
    (buildResult sqrtZero (gridPoints req0.lat req0.lon).length
      ((fetchSpecs 2025 req0).map (fun s => (okEnv s).payload))).rain_probability = 0 ∧
    (buildResult sqrtZero (gridPoints req0.lat req0.lon).length
      ((fetchSpecs 2025 req0).map (fun s => (okEnv s).payload))).hot_probability = 0 ∧
    (buildResult sqrtZero (gridPoints req0.lat req0.lon).length
      ((fetchSpecs 2025 req0).map (fun s => (okEnv s).payload))).cold_probability = 0 ∧
    (buildResult sqrtZero (gridPoints req0.lat req0.lon).length
      ((fetchSpecs 2025 req0).map (fun s => (okEnv s).payload))).wind_probability = 0 ∧
    (buildResult sqrtZero (gridPoints req0.lat req0.lon).length
      ((fetchSpecs 2025 req0).map (fun s => (okEnv s).payload))).data_points = 0 :=
  empty_samples_success_defaults 2025 sqrtZero req0 okEnv
    (by decide) (by decide) (by decide) (by decide)

theorem linSeq_length (a d : ℚ) (n : ℕ) : (linSeq a d n).length = n := by
  simp [linSeq]

theorem linSeq_getD (a d : ℚ) (n i : ℕ) (h : i < n) :
    (linSeq a d n).getD i 0 = a + d * i := by
  rw [List.getD_eq_getElem?_getD, linSeq]
  rw [List.getElem?_eq_getElem (by simpa using h)]
  simp

theorem idxMean_eq (n : ℕ) : idxMean n = (∑ i in Finset.range n, (i : ℚ)) / n := by
  rw [idxMean, listSum_map_range]

theorem trendDenom_eq (n : ℕ) :
    trendDenom n = ∑ i in Finset.range n, ((i : ℚ) - idxMean n) ^ 2 := by
  rw [trendDenom, listSum_map_range]

theorem trendDenom_pos (n : ℕ) (h : 2 ≤ n) : 0 < trendDenom n := by
  rw [trendDenom_eq]
  have hnn : ∀ i ∈ Finset.range n, (0 : ℚ) ≤ ((i : ℚ) - idxMean n) ^ 2 :=
    fun i _ => sq_nonneg _
  rcases (Finset.sum_nonneg hnn).lt_or_eq with hlt | heq
  · exact hlt
  · exfalso
    have hall := (Finset.sum_eq_zero_iff_of_nonneg hnn).mp heq.symm
    have e0 := hall 0 (Finset.mem_range.mpr (by omega))
    have e1 := hall 1 (Finset.mem_range.mpr (by omega))
    have m0 : idxMean n = 0 := by
      have := sq_eq_zero_iff.mp e0
      push_cast at this
      linarith
    have m1 : idxMean n = 1 := by
      have := sq_eq_zero_iff.mp e1
      push_cast at this
      linarith
    rw [m0] at m1
    norm_num at m1

theorem listSum_linSeq (a d : ℚ) (n : ℕ) :
    listSum (linSeq a d n) = n * a + d * ∑ i in Finset.range n, (i : ℚ) := by
  rw [linSeq, listSum_map_range, Finset.sum_add_distrib, Finset.sum_const,
    Finset.card_range, ← Finset.mul_sum]
  simp [nsmul_eq_mul]

theorem meanY_linSeq (a d : ℚ) (n : ℕ) (hn : n ≠ 0) :
    listSum (linSeq a d n) / (n : ℚ) = a + d * idxMean n := by
  have hq : (n : ℚ) ≠ 0 := Nat.cast_ne_zero.mpr hn
  rw [listSum_linSeq, idxMean_eq]
  field_simp
  ring

theorem trendNumerator_linSeq (a d : ℚ) (n : ℕ) (hn : n ≠ 0) :
    trendNumerator (linSeq a d n) = d * trendDenom n := by
  rw [trendNumerator, trendDenom, linSeq_length, listSum_map_range, listSum_map_range,
    Finset.mul_sum]
  apply Finset.sum_congr rfl
  intro i hi
  rw [linSeq_getD a d n i (Finset.mem_range.mp hi), meanY_linSeq a d n hn]
  ring

/-- C7: `calculateTrend` returns `0` for fewer than two values, returns `0`
whenever the regression denominator (the index variance numerator it
accumulates) is zero, and on every perfectly linear sample
`[a, a + d, a + 2d, …]` of length at least 2 it recovers exactly the slope
`d`. -/
theorem trend_spec :
    (∀ values : List ℚ, values.length < 2 → calculateTrend values = 0) ∧
    (∀ values : List ℚ, trendDenom values.length = 0 → calculateTrend values = 0) ∧
    (∀ (a d : ℚ) (n : ℕ), 2 ≤ n → calculateTrend (linSeq a d n) = d) := by
  refine ⟨?_, ?_, ?_⟩
  · intro values h
    simp [calculateTrend, h]
  · intro values h
    by_cases h2 : values.length < 2
    · simp [calculateTrend, h2]
    · simp [calculateTrend, h2, h]
  · intro a d n h
    have hden := trendDenom_pos n h
    rw [calculateTrend, linSeq_length, if_neg (by omega), if_pos hden.ne',
      trendNumerator_linSeq a d n (by omega), mul_div_assoc, div_self hden.ne', mul_one]

theorem trend_spec_witness :
    calculateTrend [(5 : ℚ)] = 0 ∧ calculateTrend ([] : List ℚ) = 0 ∧
    calculateTrend (linSeq 3 2 3) = 2 :=
  ⟨trend_spec.1 [5] (by decide), trend_spec.2.1 [] (by decide),
   trend_spec.2.2 3 2 3 (by decide)⟩

end NasaForecastr
